import Mathlib

/-!
Verification development for the healthcare query routing pipeline
(semantic-search offline MiniLM/FAISS repository).

The Python sources are shallowly embedded as executable Lean definitions:

* `KeywordClassifier` (src/classifiers/keyword_classifier.py): lexical
  classification via keyword counting and ratio analysis;
* `EnsembleClassifier` (src/classifiers/ensemble_classifier.py): majority,
  weighted and confidence-based voting;
* `HealthcareQueryProcessor` (src/healthcare_query_processor.py): similarity
  search routing, confidence scoring, error handling and analytics counters;
* `HealthcareQueryAnalyzer` (same file): complexity scoring and
  query-improvement recommendations;
* `GeminiProvider.generate_dsl_query` (src/llm_providers/gemini_provider.py):
  the bounded retry loop around JSON parsing;
* `DSLQueryGenerator._generate_fallback_query` (src/dsl_query_generator.py):
  the deterministic rule-based fallback DSL builder.

Floating point scores are modelled over `ℚ`; Python dictionaries become
structures; Python exceptions become `Except String`.
-/

namespace Semsearch

/-! ### String primitives

Python `str.lower`, the substring test `needle in hay`, the `\b\w+\b`
tokenizer of `KeywordClassifier._extract_words`, and `str.split()`. -/

/-- Python `str.lower()` (ASCII behaviour, which is all the repository
uses), written over the character list so it evaluates by `decide`. -/
def pyLower (s : String) : String := String.mk (s.data.map Char.toLower)

/-- Boolean prefix test on character lists (`l₁` begins `l₂`). -/
def prefB : List Char → List Char → Bool
  | [], _ => true
  | _ :: _, [] => false
  | a :: as, b :: bs => a == b && prefB as bs

/-- Boolean contiguous-substring test on character lists: Python's
`needle in hay` on strings. -/
def subB (needle : List Char) : List Char → Bool
  | [] => needle.isEmpty
  | hay@(_ :: rest) => prefB needle hay || subB needle rest

/-- Python `needle in hay` for strings. -/
def occursIn (hay needle : String) : Bool := subB needle.data hay.data

theorem prefB_iff (l₁ l₂ : List Char) : prefB l₁ l₂ = true ↔ l₁ <+: l₂ := by
  induction l₁ generalizing l₂ with
  | nil => simp [prefB]
  | cons a as ih =>
    cases l₂ with
    | nil => simp [prefB]
    | cons b bs =>
      simp only [prefB, Bool.and_eq_true, beq_iff_eq, ih, List.cons_prefix_cons]

theorem subB_iff (l₁ l₂ : List Char) : subB l₁ l₂ = true ↔ l₁ <:+: l₂ := by
  induction l₂ with
  | nil =>
    simp only [subB, List.isEmpty_iff, List.infix_nil]
  | cons b bs ih =>
    simp only [subB, Bool.or_eq_true, prefB_iff, ih, List.infix_cons_iff]

/-- A character the `\w` regex class accepts (ASCII view). -/
def isWordChar (c : Char) : Bool := c.isAlphanum || c = '_'

/-- Accumulating tokenizer behind `extractWords`: groups maximal runs of
word characters. -/
def wordsAux : List Char → List Char → List String
  | [], acc => if acc.isEmpty then [] else [String.mk acc.reverse]
  | c :: cs, acc =>
    if isWordChar c then wordsAux cs (c :: acc)
    else if acc.isEmpty then wordsAux cs []
    else String.mk acc.reverse :: wordsAux cs []

/-- `KeywordClassifier._extract_words`: `re.findall(r'\b\w+\b', text.lower())`. -/
def extractWords (text : String) : List String := wordsAux (pyLower text).data []

/-- Accumulating splitter behind `pySplit`: groups maximal runs of
non-whitespace characters. -/
def splitWs : List Char → List Char → List String
  | [], acc => if acc.isEmpty then [] else [String.mk acc.reverse]
  | c :: cs, acc =>
    if c.isWhitespace then
      if acc.isEmpty then splitWs cs []
      else String.mk acc.reverse :: splitWs cs []
    else splitWs cs (c :: acc)

/-- Python `str.split()` with no argument: split on whitespace runs,
dropping empty pieces (used by `analyze_query_complexity`). -/
def pySplit (s : String) : List String := splitWs s.data []

/-! ### `ClassificationResult` (src/classifiers/base_classifier.py)

The dataclass fields `processing_time_ms` and `raw_response` are timing and
debug payloads; the decision-relevant fields are embedded. `method` records
which branch of the classifier produced the result (the `"method"` key of
`raw_response`). -/

structure ClassificationResult where
  is_healthcare : Bool
  confidence : ℚ
  model_name : String
  method : String
  deriving Repr, DecidableEq

/-- `BaseHealthcareClassifier.should_route_to_healthcare`. -/
def shouldRouteToHealthcare (threshold : ℚ) (r : ClassificationResult) : Bool :=
  r.is_healthcare && r.confidence ≥ threshold

/-! ### `KeywordClassifier` (src/classifiers/keyword_classifier.py) -/

/-- Constructor-time configuration of `KeywordClassifier` (defaults from
`__init__`). -/
structure KwConfig where
  ratio_threshold : ℚ := 1/10
  min_confidence : ℚ := 3/10
  use_ratio_based : Bool := true
  fallback_to_count : Bool := true
  model_name : String := "unknown"

/-- Number of keywords of the set that occur as substrings of the
lower-cased query:
`sum(1 for keyword in keywords if keyword in query_lower)`. -/
def keywordHits (keywords : List String) (queryLower : String) : Nat :=
  (keywords.filter (fun k => occursIn queryLower k)).length

/-- The minimal built-in healthcare keyword fallback set
(`_load_healthcare_keywords`). -/
def minimalHealthcareKeywords : List String :=
  ["healthcare", "medical", "patient", "doctor", "hospital", "clinic",
   "insurance", "claim", "provider", "member", "procedure", "treatment"]

/-- The minimal built-in non-healthcare keyword fallback set
(`_load_non_healthcare_keywords`). -/
def minimalNonHealthcareKeywords : List String :=
  ["food", "cooking", "weather", "car", "movie", "music", "sports",
   "travel", "phone", "computer", "shopping", "restaurant"]

/-- `healthcare_count / total_words if total_words > 0 else 0`. -/
def ratioQ (count totalWords : Nat) : ℚ :=
  if totalWords > 0 then (count : ℚ) / (totalWords : ℚ) else 0

/-- `KeywordClassifier._calculate_confidence`. -/
def calcConfidence (cfg : KwConfig) (primary secondary diff : ℚ) : ℚ :=
  let base := min (9/10) (3/10 + primary * 2)
  let base := if diff > cfg.ratio_threshold then base + min (2/10) (diff * 2) else base
  let base := if primary < 1/10 then base * (8/10) else base
  max cfg.min_confidence (min (95/100) base)

/-- `KeywordClassifier._count_based_classification`. -/
def countBased (cfg : KwConfig) (hc nc : Nat) : ClassificationResult :=
  if hc > nc then
    { is_healthcare := true, confidence := min (9/10) (1/2 + (hc : ℚ) / 10),
      model_name := cfg.model_name, method := "count_based_classification" }
  else if nc > hc then
    { is_healthcare := false, confidence := min (9/10) (1/2 + (nc : ℚ) / 10),
      model_name := cfg.model_name, method := "count_based_classification" }
  else
    { is_healthcare := true, confidence := cfg.min_confidence,
      model_name := cfg.model_name, method := "count_based_classification" }

/-- The trailing `if confidence < self.min_confidence` fallback check of
`_ratio_based_classification`, after a winning ratio (or the
no-count-fallback tie) fixed `is_healthcare` and `confidence`. -/
def ratioPostCheck (cfg : KwConfig) (ih : Bool) (conf : ℚ) (hc nc : Nat) :
    ClassificationResult :=
  if conf < cfg.min_confidence && cfg.fallback_to_count then countBased cfg hc nc
  else { is_healthcare := ih, confidence := conf,
         model_name := cfg.model_name, method := "ratio_based_classification" }

/-- `KeywordClassifier._ratio_based_classification`. -/
def ratioBased (cfg : KwConfig) (hc nc totalWords : Nat) : ClassificationResult :=
  let hr := ratioQ hc totalWords
  let nr := ratioQ nc totalWords
  let diff := |hr - nr|
  if hr > nr then ratioPostCheck cfg true (calcConfidence cfg hr nr diff) hc nc
  else if nr > hr then ratioPostCheck cfg false (calcConfidence cfg nr hr diff) hc nc
  else if cfg.fallback_to_count then countBased cfg hc nc
  else ratioPostCheck cfg true cfg.min_confidence hc nc

/-- `KeywordClassifier.classify`, parametrised by the loaded keyword sets. -/
def kwClassify (cfg : KwConfig) (hkws nkws : List String) (query : String) :
    ClassificationResult :=
  let queryLower := pyLower query
  let words := extractWords queryLower
  let totalWords := words.length
  let hc := keywordHits hkws queryLower
  let nc := keywordHits nkws queryLower
  if cfg.use_ratio_based && totalWords > 0 then ratioBased cfg hc nc totalWords
  else countBased cfg hc nc

/-! ### `EnsembleClassifier` voting (src/classifiers/ensemble_classifier.py) -/

/-- `EnsembleClassifier._majority_voting` (model name prefixing elided into
the `model_name` field). -/
def majorityVoting (modelName : String)
    (bart keyword : ClassificationResult) : ClassificationResult :=
  let bartVote : Nat := if bart.is_healthcare then 1 else 0
  let keywordVote : Nat := if keyword.is_healthcare then 1 else 0
  { is_healthcare := bartVote + keywordVote ≥ 1,
    confidence := (bart.confidence + keyword.confidence) / 2,
    model_name := "ensemble_" ++ modelName,
    method := "majority_voting" }

/-- `EnsembleClassifier._weighted_voting`. -/
def weightedVoting (modelName : String) (bartWeight keywordWeight : ℚ)
    (bart keyword : ClassificationResult) : ClassificationResult :=
  let bartScore := if bart.is_healthcare then bart.confidence * bartWeight
                   else (1 - bart.confidence) * bartWeight
  let keywordScore := if keyword.is_healthcare then keyword.confidence * keywordWeight
                      else (1 - keyword.confidence) * keywordWeight
  let ih : Bool := bartScore + keywordScore > 1/2
  { is_healthcare := ih,
    confidence := if ih then bartScore + keywordScore
                  else 1 - (bartScore + keywordScore),
    model_name := "ensemble_" ++ modelName,
    method := "weighted_voting" }

/-- `EnsembleClassifier._confidence_based_voting`; `method` records the
`selected_classifier` key of the raw response. -/
def confidenceBasedVoting (modelName : String)
    (bart keyword : ClassificationResult) : ClassificationResult :=
  if bart.confidence > keyword.confidence then
    { is_healthcare := bart.is_healthcare, confidence := bart.confidence,
      model_name := "ensemble_" ++ modelName, method := "selected_bart" }
  else
    { is_healthcare := keyword.is_healthcare, confidence := keyword.confidence,
      model_name := "ensemble_" ++ modelName, method := "selected_keyword" }

/-! ### `HealthcareQueryProcessor` (src/healthcare_query_processor.py)

A search hit from `EmbeddingGenerator.search_consolidated_index` carries a
similarity score, the tag of its originating source index and a text
snippet. The four routing-response dictionaries are embedded as one
structure with optional fields for the keys only some responses carry. -/

structure SearchResult where
  similarity_score : ℚ
  source_index : String
  text : String
  deriving Repr, DecidableEq

inductive RoutingStatus where
  | HIGH_CONFIDENCE
  | REQUIRES_CLARIFICATION
  | REJECTED_NON_HEALTHCARE
  | ERROR
  deriving Repr, DecidableEq

/-- The `clarification_request` payload of
`_create_clarification_request_response`. -/
structure ClarificationRequest where
  message : String
  available_healthcare_domains : List String
  required_query_details : List String
  sample_healthcare_queries : List String
  deriving Repr, DecidableEq

structure RoutingResponse where
  query : String
  routing_status : RoutingStatus
  confidence_score : ℚ
  primary_data_source : Option String
  clarification_request : Option ClarificationRequest
  message : Option String
  deriving Repr, DecidableEq

/-- `self.available_domains` set in `HealthcareQueryProcessor.__init__`. -/
def availableDomains : List String :=
  ["Claims Processing and Payment Reconciliation",
   "Provider Network Management",
   "Fraud Detection and Investigation",
   "Financial Reporting and Analytics"]

/-- `HealthcareQueryProcessor._calculate_confidence_score`:
`0.0` on an empty result list, otherwise the maximum
`similarity_score` among the results. -/
def calculateConfidenceScore : List SearchResult → ℚ
  | [] => 0
  | r :: rs => (rs.map (·.similarity_score)).foldl max r.similarity_score

/-- `HealthcareQueryProcessor._create_high_confidence_routing_response`. -/
def highConfidenceResponse (userQuery : String) (conf : ℚ)
    (best : SearchResult) : RoutingResponse :=
  { query := userQuery,
    routing_status := .HIGH_CONFIDENCE,
    confidence_score := conf,
    primary_data_source := some best.source_index,
    clarification_request := none,
    message := none }

/-- `HealthcareQueryProcessor._create_clarification_request_response`. -/
def clarificationResponse (userQuery : String) (conf : ℚ) : RoutingResponse :=
  { query := userQuery,
    routing_status := .REQUIRES_CLARIFICATION,
    confidence_score := conf,
    primary_data_source := none,
    clarification_request := some
      { message := "Your query needs more specific details to find the right data source",
        available_healthcare_domains := availableDomains,
        required_query_details :=
          ["Specific domain (claims, providers, fraud, etc.)",
           "Time period (date range, quarter, etc.)",
           "Type of analysis or report needed"],
        sample_healthcare_queries :=
          ["Show me fraud detection reports for Q3 2024",
           "Generate provider network adequacy analysis for cardiology",
           "Create claims payment reconciliation report for last month",
           "Analyze provider performance metrics for emergency services"] },
    message := none }

/-- `HealthcareQueryProcessor._create_enhanced_error_response`. -/
def errorResponse (userQuery errMsg : String) : RoutingResponse :=
  { query := userQuery,
    routing_status := .ERROR,
    confidence_score := 0,
    primary_data_source := none,
    clarification_request := none,
    message := some ("Error processing query: " ++ errMsg) }

/-- `HealthcareQueryProcessor._create_enhanced_rejection_response` (the
fields the routing claims inspect). -/
def rejectionResponse (userQuery : String)
    (cr : ClassificationResult) : RoutingResponse :=
  { query := userQuery,
    routing_status := .REJECTED_NON_HEALTHCARE,
    confidence_score := cr.confidence,
    primary_data_source := none,
    clarification_request := none,
    message := some "Query appears to be non-healthcare related. Please provide a healthcare-specific query." }

/-- `HealthcareQueryProcessor._perform_similarity_search`. Indexing
`search_results[0]` on an empty list raises `IndexError`, modelled as
`Except.error`; that can only happen when the configured threshold is
non-positive. -/
def performSimilaritySearch (threshold : ℚ) (userQuery : String)
    (searchResults : List SearchResult) : Except String RoutingResponse :=
  let conf := calculateConfidenceScore searchResults
  if conf ≥ threshold then
    match searchResults with
    | [] => .error "list index out of range"
    | best :: _ => .ok (highConfidenceResponse userQuery conf best)
  else
    .ok (clarificationResponse userQuery conf)

/-- Analytics counters of `HealthcareQueryProcessor`. -/
structure ProcCounters where
  query_count : Nat := 0
  classification_count : Nat := 0
  rejection_count : Nat := 0
  error_count : Nat := 0
  deriving Repr, DecidableEq

/-- Tail of `route_healthcare_query` after the classification gate: the
similarity-search step (whose outcome the embedding collaborator
determines, `Except.error` modelling a raised exception) followed by
routing; any exception lands in the `except` clause, which increments the
error counter and produces the error response. -/
def searchAndRoute (st : ProcCounters) (userQuery : String) (threshold : ℚ)
    (searchStep : Except String (List SearchResult)) :
    ProcCounters × RoutingResponse :=
  match searchStep with
  | .error e =>
      ({ st with error_count := st.error_count + 1 }, errorResponse userQuery e)
  | .ok results =>
      match performSimilaritySearch threshold userQuery results with
      | .error e =>
          ({ st with error_count := st.error_count + 1 }, errorResponse userQuery e)
      | .ok resp => (st, resp)

/-- `HealthcareQueryProcessor.route_healthcare_query`. The classifier call
and the embedding/search call are the two fallible collaborators, passed in
as `Except` outcomes; `classifierThreshold` is the classifier's
`confidence_threshold` used by `should_route_to_healthcare`, `threshold`
the router's `default_threshold`. The function is total: no exception
escapes, every path yields a `RoutingResponse`. -/
def routeHealthcareQuery (st : ProcCounters) (userQuery : String)
    (classifierAvailable : Bool)
    (classifyStep : Except String ClassificationResult)
    (classifierThreshold threshold : ℚ)
    (searchStep : Except String (List SearchResult)) :
    ProcCounters × RoutingResponse :=
  let st := { st with query_count := st.query_count + 1 }
  if classifierAvailable then
    match classifyStep with
    | .error e =>
        ({ st with error_count := st.error_count + 1 }, errorResponse userQuery e)
    | .ok cr =>
        let st := { st with classification_count := st.classification_count + 1 }
        if shouldRouteToHealthcare classifierThreshold cr then
          searchAndRoute st userQuery threshold searchStep
        else
          ({ st with rejection_count := st.rejection_count + 1 },
           rejectionResponse userQuery cr)
  else
    searchAndRoute st userQuery threshold searchStep

/-! ### `HealthcareQueryAnalyzer` (src/healthcare_query_processor.py) -/

/-- `any(word in user_query.lower() for word in [...])`. -/
def anyTokenIn (userQuery : String) (tokens : List String) : Bool :=
  tokens.any (fun w => occursIn (pyLower userQuery) w)

def hasTimeframe (userQuery : String) : Bool :=
  anyTokenIn userQuery ["quarter", "month", "year", "2024", "2023"]

def hasDomain (userQuery : String) : Bool :=
  anyTokenIn userQuery ["claims", "provider", "fraud", "financial"]

def hasAnalysisType (userQuery : String) : Bool :=
  anyTokenIn userQuery ["report", "analysis", "metrics", "performance"]

/-- The `complexity_score` computed by
`HealthcareQueryAnalyzer.analyze_query_complexity`. -/
def complexityScore (userQuery : String) : Nat :=
  (if (pySplit userQuery).length > 5 then 1 else 0) +
  (if hasTimeframe userQuery then 1 else 0) +
  (if hasDomain userQuery then 1 else 0) +
  (if hasAnalysisType userQuery then 1 else 0)

/-- `HealthcareQueryAnalyzer._get_complexity_level`. -/
def complexityLevel (score : Nat) : String :=
  if score ≥ 3 then "HIGH" else if score ≥ 2 then "MEDIUM" else "LOW"

/-- The `improvement_suggestions` list built by
`HealthcareQueryAnalyzer.get_query_recommendations`, as a function of the
query and the router's `routing_status` for it. -/
def improvementSuggestions (userQuery : String)
    (status : RoutingStatus) : List String :=
  if status = .REQUIRES_CLARIFICATION then
    (if ¬ hasDomain userQuery then
       ["Specify the healthcare domain (claims, providers, fraud, etc.)"] else []) ++
    (if ¬ hasTimeframe userQuery then
       ["Add a time period (quarter, month, year, date range)"] else []) ++
    (if ¬ hasAnalysisType userQuery then
       ["Specify the type of analysis or report needed"] else [])
  else []

/-! ### `GeminiProvider.generate_dsl_query` retry loop
(src/llm_providers/gemini_provider.py)

The structured payload a successful `_parse_structured_response` returns is
left abstract (`Dsl`); the completion provider plus the JSON
extraction/validation chain is a collaborator `respond : String → Except
String Dsl` mapping the current prompt to either a validated document or
the `ValueError` message. The loop state is the prompt, which each retry
extends with a correction instruction. -/

/-- The correction instruction appended to the prompt before retry
`n` (Python: `prompt += f"\n\n⚠️ RETRY {attempt + 2}: ..."`). -/
def retryInstruction (n : Nat) (errMsg : String) : String :=
  "\n\n⚠️ RETRY " ++ toString n ++ ": Previous response was invalid. " ++
    errMsg ++ ". RESPOND WITH ONLY VALID JSON:"

/-- The `for attempt in range(max_retries)` loop of `generate_dsl_query`,
returning the outcome together with the list of prompts actually sent
(one per completion call). `attemptIdx` is Python's `attempt`,
`remaining` the attempts left out of `max_retries`. -/
def geminiRetryLoop (Dsl : Type) (respond : String → Except String Dsl)
    (attemptIdx : Nat) (prompt : String) :
    Nat → Except String Dsl × List String
  | 0 => (.error "range exhausted", [])
  | remaining + 1 =>
    match respond prompt with
    | .ok d => (.ok d, [prompt])
    | .error e =>
      if remaining = 0 then (.error e, [prompt])
      else
        let rest := geminiRetryLoop Dsl respond (attemptIdx + 1)
          (prompt ++ retryInstruction (attemptIdx + 2) e) remaining
        (rest.1, prompt :: rest.2)

/-- `GeminiProvider.generate_dsl_query`'s completion/validation phase:
`max_retries = 3`, starting at attempt 0 with the structured prompt. An
`Except.error` outcome models the `ValueError` raised after the final
attempt (caught further up and turned into an error `LLMResponse`, so no
invalid document ever reaches the caller as a success). -/
def generateDslQuery (Dsl : Type) (respond : String → Except String Dsl)
    (prompt : String) : Except String Dsl × List String :=
  geminiRetryLoop Dsl respond 0 prompt 3

/-! ### `DSLQueryGenerator._generate_fallback_query`
(src/dsl_query_generator.py) -/

/-- A clause appended to `base_dsl["query"]["bool"]["filter"]`. -/
inductive FilterClause where
  | statusTerm (value : String)
  | dateRange (gte : String)
  deriving Repr, DecidableEq

/-- A clause appended to `base_dsl["query"]["bool"]["must"]`. -/
inductive MustClause where
  | matchClaimType (value : String)
  | matchProviderType (value : String)
  deriving Repr, DecidableEq

structure FallbackDsl where
  must : List MustClause
  filter : List FilterClause
  size : Nat
  sortField : String
  sortOrder : String
  deriving Repr, DecidableEq

structure FallbackData where
  index_name : String
  query_type : String
  opensearch_dsl : FallbackDsl
  deriving Repr, DecidableEq

/-- `DSLQueryGenerator._generate_fallback_query`: deterministic rule-based
DSL built from lexical cues of the lower-cased query. The `if/elif`
chains are kept exactly as in the source. -/
def generateFallbackQuery (userQuery indexName : String) : FallbackData :=
  let ql := pyLower userQuery
  let statusFilters : List FilterClause :=
    if occursIn ql "denied" || occursIn ql "rejected" then
      [.statusTerm "denied"]
    else if occursIn ql "approved" || occursIn ql "paid" then
      [.statusTerm "approved"]
    else []
  let dateFilters : List FilterClause :=
    if occursIn ql "last month" || occursIn ql "recent" then
      [.dateRange "now-1M"]
    else []
  let mustClauses : List MustClause :=
    if occursIn ql "claims" then [.matchClaimType "healthcare"]
    else if occursIn ql "provider" then [.matchProviderType "healthcare"]
    else []
  { index_name := indexName,
    query_type := "search",
    opensearch_dsl :=
      { must := mustClauses,
        filter := statusFilters ++ dateFilters,
        size := 100,
        sortField := "date",
        sortOrder := "desc" } }

/-- Recogniser for a status term filter. -/
def FilterClause.isStatusTerm : FilterClause → Bool
  | .statusTerm _ => true
  | .dateRange _ => false

/-! ### Spec-side definition for the hit-counting refinement claim -/

/-- Modelled from the claim's wording, NOT from the source (for comparison
against `keywordHits`): tokenize the lower-cased query into words and count
the word occurrences that are members of the keyword set. -/
def claimedWordOccurrenceHits (keywords : List String) (query : String) : Nat :=
  ((extractWords (pyLower query)).filter (fun w => keywords.contains w)).length

/-! ## Theorems for the claims -/

/-- C1: for every query at the similarity-search stage, whenever the
routing confidence (the highest similarity score among the top-k results)
is at least the configured default threshold, the router returns
`HIGH_CONFIDENCE` with `primary_data_source` equal to the tagged source of
the first search result. -/
theorem C1_high_confidence_routing (threshold : ℚ) (userQuery : String)
    (best : SearchResult) (rest : List SearchResult)
    (h : calculateConfidenceScore (best :: rest) ≥ threshold) :
    ∃ resp, performSimilaritySearch threshold userQuery (best :: rest) =
        Except.ok resp ∧
      resp.routing_status = RoutingStatus.HIGH_CONFIDENCE ∧
      resp.primary_data_source = some best.source_index ∧
      resp.confidence_score = calculateConfidenceScore (best :: rest) := by
  refine ⟨highConfidenceResponse userQuery
    (calculateConfidenceScore (best :: rest)) best, ?_, rfl, rfl, rfl⟩
  simp [performSimilaritySearch, h]

theorem C1_witness :
    ∃ resp, performSimilaritySearch (3/5) "show me claims data"
        [⟨4/5, "healthcare_claims_index", "claims payment reconciliation"⟩] =
        Except.ok resp ∧
      resp.routing_status = RoutingStatus.HIGH_CONFIDENCE ∧
      resp.primary_data_source = some "healthcare_claims_index" ∧
      resp.confidence_score = calculateConfidenceScore
        [⟨4/5, "healthcare_claims_index", "claims payment reconciliation"⟩] :=
  C1_high_confidence_routing (3/5) "show me claims data"
    ⟨4/5, "healthcare_claims_index", "claims payment reconciliation"⟩ []
    (by norm_num [calculateConfidenceScore])

/-- C3: for every query at the similarity-search stage, empty search
results give computed confidence exactly `0.0` and (for any positive
configured threshold) routing status `REQUIRES_CLARIFICATION` carrying the
clarification payload — available domains, required detail categories and
sample queries; moreover an empty result list never yields a
`HIGH_CONFIDENCE` response, whatever the threshold. -/
theorem C3_empty_results_clarification (threshold : ℚ) (userQuery : String)
    (h : 0 < threshold) :
    calculateConfidenceScore [] = 0 ∧
    (∃ resp, performSimilaritySearch threshold userQuery [] = Except.ok resp ∧
      resp.routing_status = RoutingStatus.REQUIRES_CLARIFICATION ∧
      resp.confidence_score = 0 ∧
      resp.clarification_request = some
        { message := "Your query needs more specific details to find the right data source",
          available_healthcare_domains := availableDomains,
          required_query_details :=
            ["Specific domain (claims, providers, fraud, etc.)",
             "Time period (date range, quarter, etc.)",
             "Type of analysis or report needed"],
          sample_healthcare_queries :=
            ["Show me fraud detection reports for Q3 2024",
             "Generate provider network adequacy analysis for cardiology",
             "Create claims payment reconciliation report for last month",
             "Analyze provider performance metrics for emergency services"] }) ∧
    (∀ threshold' : ℚ, ∀ resp,
      performSimilaritySearch threshold' userQuery [] = Except.ok resp →
      resp.routing_status ≠ RoutingStatus.HIGH_CONFIDENCE) := by
  refine ⟨rfl, ⟨clarificationResponse userQuery 0, ?_, rfl, rfl, rfl⟩, ?_⟩
  · simp [performSimilaritySearch, calculateConfidenceScore, not_le.mpr h]
  · intro threshold' resp hresp
    by_cases h' : (0 : ℚ) ≥ threshold'
    · simp [performSimilaritySearch, calculateConfidenceScore, h'] at hresp
    · simp [performSimilaritySearch, calculateConfidenceScore, h'] at hresp
      subst hresp
      simp [clarificationResponse]

theorem C3_witness :
    calculateConfidenceScore [] = 0 ∧
    (∃ resp, performSimilaritySearch (3/5) "show me data" [] = Except.ok resp ∧
      resp.routing_status = RoutingStatus.REQUIRES_CLARIFICATION ∧
      resp.confidence_score = 0 ∧
      resp.clarification_request = some
        { message := "Your query needs more specific details to find the right data source",
          available_healthcare_domains := availableDomains,
          required_query_details :=
            ["Specific domain (claims, providers, fraud, etc.)",
             "Time period (date range, quarter, etc.)",
             "Type of analysis or report needed"],
          sample_healthcare_queries :=
            ["Show me fraud detection reports for Q3 2024",
             "Generate provider network adequacy analysis for cardiology",
             "Create claims payment reconciliation report for last month",
             "Analyze provider performance metrics for emergency services"] }) ∧
    (∀ threshold' : ℚ, ∀ resp,
      performSimilaritySearch threshold' "show me data" [] = Except.ok resp →
      resp.routing_status ≠ RoutingStatus.HIGH_CONFIDENCE) :=
  C3_empty_results_clarification (3/5) "show me data" (by norm_num)

/-- C9: with the `confidence` voting strategy and both sub-classifiers
available, a tie in confidence is resolved toward the keyword (lexical)
classifier, whose verdict and confidence are returned; the BART result is
selected only when its confidence is strictly higher. -/
theorem C9_confidence_voting_tie (modelName : String)
    (bart keyword : ClassificationResult) :
    (bart.confidence = keyword.confidence →
      confidenceBasedVoting modelName bart keyword =
        { is_healthcare := keyword.is_healthcare,
          confidence := keyword.confidence,
          model_name := "ensemble_" ++ modelName,
          method := "selected_keyword" }) ∧
    (bart.confidence > keyword.confidence →
      confidenceBasedVoting modelName bart keyword =
        { is_healthcare := bart.is_healthcare,
          confidence := bart.confidence,
          model_name := "ensemble_" ++ modelName,
          method := "selected_bart" }) := by
  constructor
  · intro h
    simp [confidenceBasedVoting, h]
  · intro h
    simp [confidenceBasedVoting, h]

theorem C9_witness :
    confidenceBasedVoting "bart-large-mnli"
        ⟨false, 7/10, "bart", "zero_shot"⟩ ⟨true, 7/10, "kw", "ratio"⟩ =
      { is_healthcare := true, confidence := 7/10,
        model_name := "ensemble_bart-large-mnli", method := "selected_keyword" } ∧
    confidenceBasedVoting "bart-large-mnli"
        ⟨false, 9/10, "bart", "zero_shot"⟩ ⟨true, 7/10, "kw", "ratio"⟩ =
      { is_healthcare := false, confidence := 9/10,
        model_name := "ensemble_bart-large-mnli", method := "selected_bart" } :=
  ⟨(C9_confidence_voting_tie "bart-large-mnli"
      ⟨false, 7/10, "bart", "zero_shot"⟩ ⟨true, 7/10, "kw", "ratio"⟩).1 rfl,
   (C9_confidence_voting_tie "bart-large-mnli"
      ⟨false, 9/10, "bart", "zero_shot"⟩ ⟨true, 7/10, "kw", "ratio"⟩).2 (by norm_num)⟩

/-- C10: every document the fallback DSL generator produces contains at
most one status term filter; and when the lower-cased query contains both
a denied-type token and an approved-type token, only the `status=denied`
filter is added (the approved branch is never taken). -/
theorem C10_fallback_status_filter (userQuery indexName : String) :
    ((generateFallbackQuery userQuery indexName).opensearch_dsl.filter.countP
        (·.isStatusTerm)) ≤ 1 ∧
    ((occursIn (pyLower userQuery) "denied" ||
        occursIn (pyLower userQuery) "rejected") = true →
     (occursIn (pyLower userQuery) "approved" ||
        occursIn (pyLower userQuery) "paid") = true →
     (generateFallbackQuery userQuery indexName).opensearch_dsl.filter.filter
        (·.isStatusTerm) = [FilterClause.statusTerm "denied"]) := by
  constructor
  · unfold generateFallbackQuery
    dsimp only
    split_ifs <;>
      simp [List.countP_append, List.countP_cons, FilterClause.isStatusTerm]
  · intro h1 _h2
    unfold generateFallbackQuery
    dsimp only
    rw [if_pos h1]
    split_ifs <;> simp [FilterClause.isStatusTerm]

/-- C4 fails as stated: with weights that do not sum to 1 (here both 1)
and two healthcare votes at confidence 1, the weighted ensemble returns
confidence 2, outside `[0,1]`. -/
theorem C4_counterexample :
    (weightedVoting "bart-large-mnli" 1 1
        ⟨true, 1, "bart", "zero_shot"⟩ ⟨true, 1, "kw", "ratio"⟩).confidence = 2 ∧
    ¬ ((weightedVoting "bart-large-mnli" 1 1
        ⟨true, 1, "bart", "zero_shot"⟩ ⟨true, 1, "kw", "ratio"⟩).confidence ≤ 1) := by
  constructor
  · norm_num [weightedVoting]
  · norm_num [weightedVoting]

/-- C4 (amended): for sub-confidences in `[0,1]` and non-negative weights
whose sum is at most 1, the weighted ensemble's confidence lies in
`[0,1]`; and (unconditionally) the majority-voting ensemble's confidence
equals the arithmetic mean of the two sub-confidences. -/
theorem C4_ensemble_confidence_bounds (modelName : String)
    (bartWeight keywordWeight : ℚ) (bart keyword : ClassificationResult)
    (hbw : 0 ≤ bartWeight) (hkw : 0 ≤ keywordWeight)
    (hsum : bartWeight + keywordWeight ≤ 1)
    (hb0 : 0 ≤ bart.confidence) (hb1 : bart.confidence ≤ 1)
    (hk0 : 0 ≤ keyword.confidence) (hk1 : keyword.confidence ≤ 1) :
    (0 ≤ (weightedVoting modelName bartWeight keywordWeight bart keyword).confidence ∧
      (weightedVoting modelName bartWeight keywordWeight bart keyword).confidence ≤ 1) ∧
    (majorityVoting modelName bart keyword).confidence =
      (bart.confidence + keyword.confidence) / 2 := by
  refine ⟨?_, rfl⟩
  cases hB : bart.is_healthcare <;> cases hK : keyword.is_healthcare <;>
    · simp only [weightedVoting, hB, hK, Bool.false_eq_true, if_false, if_true,
        Bool.true_eq_false, ite_true, ite_false]
      split_ifs <;> constructor <;> nlinarith

theorem C4_witness :
    (0 ≤ (weightedVoting "bart-large-mnli" (3/5) (2/5)
        ⟨true, 4/5, "bart", "zero_shot"⟩ ⟨false, 3/10, "kw", "ratio"⟩).confidence ∧
      (weightedVoting "bart-large-mnli" (3/5) (2/5)
        ⟨true, 4/5, "bart", "zero_shot"⟩ ⟨false, 3/10, "kw", "ratio"⟩).confidence ≤ 1) ∧
    (majorityVoting "bart-large-mnli"
        ⟨true, 4/5, "bart", "zero_shot"⟩ ⟨false, 3/10, "kw", "ratio"⟩).confidence =
      ((4:ℚ)/5 + 3/10) / 2 :=
  C4_ensemble_confidence_bounds "bart-large-mnli" (3/5) (2/5)
    ⟨true, 4/5, "bart", "zero_shot"⟩ ⟨false, 3/10, "kw", "ratio"⟩
    (by norm_num) (by norm_num) (by norm_num)
    (by norm_num) (by norm_num) (by norm_num) (by norm_num)

/-- C5: whenever both keyword hit counts are zero, the lexical classifier
returns `is_healthcare = true` with confidence exactly `min_confidence`,
for every configuration and keyword sets. -/
theorem C5_zero_hits_ambiguous_default (cfg : KwConfig)
    (hkws nkws : List String) (query : String)
    (hh : keywordHits hkws (pyLower query) = 0)
    (hn : keywordHits nkws (pyLower query) = 0) :
    (kwClassify cfg hkws nkws query).is_healthcare = true ∧
    (kwClassify cfg hkws nkws query).confidence = cfg.min_confidence := by
  have hcount : countBased cfg 0 0 =
      { is_healthcare := true, confidence := cfg.min_confidence,
        model_name := cfg.model_name, method := "count_based_classification" } := by
    simp [countBased]
  have hratio : ∀ tw : Nat, ratioBased cfg 0 0 tw =
      if cfg.fallback_to_count then countBased cfg 0 0
      else { is_healthcare := true, confidence := cfg.min_confidence,
             model_name := cfg.model_name, method := "ratio_based_classification" } := by
    intro tw
    simp only [ratioBased, ratioQ, Nat.cast_zero, zero_div, ite_self,
      lt_irrefl, if_false, gt_iff_lt]
    split_ifs with hf
    · rfl
    · simp [ratioPostCheck, lt_irrefl]
  unfold kwClassify
  simp only [hh, hn]
  split_ifs with h
  · rw [hratio]
    split_ifs with hf
    · rw [hcount]
      exact ⟨rfl, rfl⟩
    · exact ⟨rfl, rfl⟩
  · rw [hcount]
    exact ⟨rfl, rfl⟩

theorem C5_witness :
    (kwClassify {} minimalHealthcareKeywords minimalNonHealthcareKeywords
      "Hello World").is_healthcare = true ∧
    (kwClassify {} minimalHealthcareKeywords minimalNonHealthcareKeywords
      "Hello World").confidence = ({} : KwConfig).min_confidence :=
  C5_zero_hits_ambiguous_default {} minimalHealthcareKeywords
    minimalNonHealthcareKeywords "Hello World" (by decide) (by decide)

/-- C6 fails as stated: the code does not count word occurrences that are
members of the keyword set. It counts keywords of the set occurring as
substrings of the whole lower-cased query, so a word repeated twice counts
once ("claim claim") and a keyword matches inside a longer word
("claims"). -/
theorem C6_counterexample :
    keywordHits minimalHealthcareKeywords (pyLower "claim claim") = 1 ∧
    claimedWordOccurrenceHits minimalHealthcareKeywords "claim claim" = 2 ∧
    keywordHits minimalHealthcareKeywords (pyLower "claim claim") ≠
      claimedWordOccurrenceHits minimalHealthcareKeywords "claim claim" ∧
    keywordHits minimalHealthcareKeywords (pyLower "claims") = 1 ∧
    claimedWordOccurrenceHits minimalHealthcareKeywords "claims" = 0 := by
  decide

/-- C6 (amended): the lexical classifier's hit counts are computed over
the lower-cased query by counting the keywords of the respective set that
occur as contiguous substrings of it — each keyword contributing at most
one, regardless of word boundaries or multiplicity — so a count never
exceeds the size of the keyword set; and the ratios are these counts
divided by the number of tokenized words. -/
theorem C6_keyword_hits_characterisation (kws : List String) (query : String)
    (count totalWords : Nat) (htw : 0 < totalWords) :
    keywordHits kws (pyLower query) =
      (kws.filter (fun k => decide (k.data <:+: (pyLower query).data))).length ∧
    keywordHits kws (pyLower query) ≤ kws.length ∧
    ratioQ count totalWords = (count : ℚ) / (totalWords : ℚ) := by
  refine ⟨?_, List.length_filter_le _ _, by simp [ratioQ, htw]⟩
  unfold keywordHits
  congr 1
  refine List.filter_congr ?_
  intro k _
  rw [Bool.eq_iff_iff]
  simp only [occursIn, subB_iff, decide_eq_true_eq]

theorem C6_amended_witness :
    keywordHits minimalHealthcareKeywords (pyLower "Show me claims data") =
      (minimalHealthcareKeywords.filter
        (fun k => decide (k.data <:+: (pyLower "Show me claims data").data))).length ∧
    keywordHits minimalHealthcareKeywords (pyLower "Show me claims data") ≤
      minimalHealthcareKeywords.length ∧
    ratioQ 1 4 = (1 : ℚ) / (4 : ℚ) :=
  C6_keyword_hits_characterisation minimalHealthcareKeywords
    "Show me claims data" 1 4 (by decide)

/-- Structural-recursion unfolding equation for `geminiRetryLoop` at a
positive attempt budget. -/
theorem geminiRetryLoop_succ (Dsl : Type) (respond : String → Except String Dsl)
    (a : Nat) (p : String) (n : Nat) :
    geminiRetryLoop Dsl respond a p (n+1) =
      match respond p with
      | .ok d => (.ok d, [p])
      | .error e =>
        if n = 0 then (.error e, [p])
        else
          let rest := geminiRetryLoop Dsl respond (a + 1)
            (p ++ retryInstruction (a + 2) e) n
          (rest.1, p :: rest.2) := rfl

/-- C7: the completion call of `generate_dsl_query` is attempted at most 3
times (the prompt list collects one entry per completion call and never
exceeds 3); the first attempt uses the structured prompt; each retry's
prompt is the previous prompt with an explicit correction instruction
appended; and if every attempt fails JSON extraction/validation, the
outcome is a raised generation error, never a document. -/
theorem C7_gemini_retry_budget (Dsl : Type)
    (respond : String → Except String Dsl) (prompt : String) :
    (generateDslQuery Dsl respond prompt).2.length ≤ 3 ∧
    (generateDslQuery Dsl respond prompt).2[0]? = some prompt ∧
    (∀ i p p', (generateDslQuery Dsl respond prompt).2[i]? = some p →
       (generateDslQuery Dsl respond prompt).2[i+1]? = some p' →
       ∃ e, respond p = Except.error e ∧
         p' = p ++ retryInstruction (i + 2) e) ∧
    ((∀ q, ∃ e, respond q = Except.error e) →
       ∃ e, (generateDslQuery Dsl respond prompt).1 = Except.error e) := by
  cases h1 : respond prompt with
  | ok d =>
    have hout : generateDslQuery Dsl respond prompt = (.ok d, [prompt]) := by
      unfold generateDslQuery
      rw [geminiRetryLoop_succ, h1]
    rw [hout]
    refine ⟨by simp, rfl, ?_, ?_⟩
    · intro i p p' _hp hp'
      rcases i with _ | i <;> simp at hp'
    · intro hall
      obtain ⟨e, he⟩ := hall prompt
      rw [h1] at he
      exact absurd he (by simp)
  | error e1 =>
    cases h2 : respond (prompt ++ retryInstruction 2 e1) with
    | ok d =>
      have hout : generateDslQuery Dsl respond prompt =
          (.ok d, [prompt, prompt ++ retryInstruction 2 e1]) := by
        unfold generateDslQuery
        rw [geminiRetryLoop_succ, h1]
        simp only [Nat.succ_ne_zero, if_false, OfNat.ofNat_ne_zero]
        rw [geminiRetryLoop_succ, h2]
      rw [hout]
      refine ⟨by simp, rfl, ?_, ?_⟩
      · intro i p p' hp hp'
        rcases i with _ | _ | i
        · simp only [List.getElem?_cons_zero, Option.some_inj] at hp
          simp only [List.getElem?_cons_succ, List.getElem?_cons_zero,
            Option.some_inj] at hp'
          subst hp hp'
          exact ⟨e1, h1, rfl⟩
        · simp at hp'
        · simp at hp'
      · intro hall
        obtain ⟨e, he⟩ := hall (prompt ++ retryInstruction 2 e1)
        rw [h2] at he
        exact absurd he (by simp)
    | error e2 =>
      cases h3 : respond (prompt ++ retryInstruction 2 e1 ++
          retryInstruction 3 e2) with
      | ok d =>
        have hout : generateDslQuery Dsl respond prompt =
            (.ok d, [prompt, prompt ++ retryInstruction 2 e1,
              prompt ++ retryInstruction 2 e1 ++ retryInstruction 3 e2]) := by
          unfold generateDslQuery
          rw [geminiRetryLoop_succ, h1]
          simp only [Nat.succ_ne_zero, if_false, OfNat.ofNat_ne_zero]
          rw [geminiRetryLoop_succ, h2]
          simp only [Nat.succ_ne_zero, if_false, OfNat.ofNat_ne_zero]
          rw [geminiRetryLoop_succ, h3]
        rw [hout]
        refine ⟨by simp, rfl, ?_, ?_⟩
        · intro i p p' hp hp'
          rcases i with _ | _ | _ | i
          · simp only [List.getElem?_cons_zero, Option.some_inj] at hp
            simp only [List.getElem?_cons_succ, List.getElem?_cons_zero,
              Option.some_inj] at hp'
            subst hp hp'
            exact ⟨e1, h1, rfl⟩
          · simp only [List.getElem?_cons_succ, List.getElem?_cons_zero,
              Option.some_inj] at hp hp'
            subst hp hp'
            exact ⟨e2, h2, rfl⟩
          · simp at hp'
          · simp at hp'
        · intro hall
          obtain ⟨e, he⟩ := hall (prompt ++ retryInstruction 2 e1 ++
            retryInstruction 3 e2)
          rw [h3] at he
          exact absurd he (by simp)
      | error e3 =>
        have hout : generateDslQuery Dsl respond prompt =
            (.error e3, [prompt, prompt ++ retryInstruction 2 e1,
              prompt ++ retryInstruction 2 e1 ++ retryInstruction 3 e2]) := by
          unfold generateDslQuery
          rw [geminiRetryLoop_succ, h1]
          simp only [Nat.succ_ne_zero, if_false, OfNat.ofNat_ne_zero]
          rw [geminiRetryLoop_succ, h2]
          simp only [Nat.succ_ne_zero, if_false, OfNat.ofNat_ne_zero]
          rw [geminiRetryLoop_succ, h3]
          rfl
        rw [hout]
        refine ⟨by simp, rfl, ?_, fun _ => ⟨e3, rfl⟩⟩
        intro i p p' hp hp'
        rcases i with _ | _ | _ | i
        · simp only [List.getElem?_cons_zero, Option.some_inj] at hp
          simp only [List.getElem?_cons_succ, List.getElem?_cons_zero,
            Option.some_inj] at hp'
          subst hp hp'
          exact ⟨e1, h1, rfl⟩
        · simp only [List.getElem?_cons_succ, List.getElem?_cons_zero,
            Option.some_inj] at hp hp'
          subst hp hp'
          exact ⟨e2, h2, rfl⟩
        · simp at hp'
        · simp at hp'

theorem C7_witness :
    (generateDslQuery Unit (fun _ => Except.error "bad json") "PROMPT").2.length ≤ 3 ∧
    (∃ e, (generateDslQuery Unit (fun _ => Except.error "bad json") "PROMPT").1 =
      Except.error e) ∧
    (∃ e, (fun _ => (Except.error "bad json" : Except String Unit)) "PROMPT" =
        Except.error e ∧
      "PROMPT" ++ retryInstruction 2 "bad json" =
        "PROMPT" ++ retryInstruction (0 + 2) e) := by
  refine ⟨(C7_gemini_retry_budget Unit (fun _ => Except.error "bad json") "PROMPT").1,
    (C7_gemini_retry_budget Unit (fun _ => Except.error "bad json") "PROMPT").2.2.2
      (fun _ => ⟨"bad json", rfl⟩), ?_⟩
  exact (C7_gemini_retry_budget Unit (fun _ => Except.error "bad json") "PROMPT").2.2.1
    0 "PROMPT" ("PROMPT" ++ retryInstruction 2 "bad json") rfl rfl

/-- C8 fails as stated: for the query `"fraud detection"` the complexity
score is 1 (the token `fraud` is a domain keyword, so
`has_domain_specification` is true), not 0, and only 2 improvement
suggestions are produced, not 3. -/
theorem C8_counterexample :
    ¬ (complexityScore "fraud detection" = 0 ∧
       (improvementSuggestions "fraud detection"
         RoutingStatus.REQUIRES_CLARIFICATION).length = 3) := by
  decide

/-- C8 (amended): for the query `"fraud detection"` the complexity
analyzer produces complexity score 1 (word count 2, no timeframe, domain
present via the token `fraud`, no analysis type), complexity level `LOW`,
and, when the routing decision is `REQUIRES_CLARIFICATION`, exactly 2
improvement suggestions: add a timeframe and specify the analysis type. -/
theorem C8_fraud_detection_complexity :
    complexityScore "fraud detection" = 1 ∧
    complexityLevel (complexityScore "fraud detection") = "LOW" ∧
    improvementSuggestions "fraud detection"
        RoutingStatus.REQUIRES_CLARIFICATION =
      ["Add a time period (quarter, month, year, date range)",
       "Specify the type of analysis or report needed"] := by
  refine ⟨by decide, by decide, by decide⟩

/-- C2: whenever an exception is raised during classification or during
embedding/search, `route_healthcare_query` does not propagate it (the
embedded function is total): it returns a response with routing status
`ERROR` whose message preserves the exception's message, and the error
counter is incremented by exactly one. -/
theorem C2_route_error_handling (st : ProcCounters) (userQuery : String)
    (classifierAvailable : Bool)
    (classifyStep : Except String ClassificationResult)
    (classifierThreshold threshold : ℚ)
    (searchStep : Except String (List SearchResult)) (e : String)
    (h : (classifierAvailable = true ∧ classifyStep = Except.error e) ∨
         ((classifierAvailable = false ∨
            ∃ cr, classifyStep = Except.ok cr ∧
              shouldRouteToHealthcare classifierThreshold cr = true) ∧
          searchStep = Except.error e)) :
    (routeHealthcareQuery st userQuery classifierAvailable classifyStep
        classifierThreshold threshold searchStep).2.routing_status =
      RoutingStatus.ERROR ∧
    (routeHealthcareQuery st userQuery classifierAvailable classifyStep
        classifierThreshold threshold searchStep).2.message =
      some ("Error processing query: " ++ e) ∧
    (routeHealthcareQuery st userQuery classifierAvailable classifyStep
        classifierThreshold threshold searchStep).1.error_count =
      st.error_count + 1 := by
  rcases h with ⟨havail, hcls⟩ | ⟨hpath, hsrch⟩
  · subst havail hcls
    simp [routeHealthcareQuery, errorResponse]
  · rcases hpath with havail | ⟨cr, hcls, hroute⟩
    · subst havail hsrch
      simp [routeHealthcareQuery, searchAndRoute, errorResponse]
    · subst hcls hsrch
      cases classifierAvailable <;>
        simp [routeHealthcareQuery, searchAndRoute, errorResponse, hroute]

theorem C2_witness :
    (routeHealthcareQuery {} "show me claims data" true
        (Except.error "model not loaded") (1/2) (3/5)
        (Except.ok [])).2.routing_status = RoutingStatus.ERROR ∧
    (routeHealthcareQuery {} "show me claims data" true
        (Except.error "model not loaded") (1/2) (3/5)
        (Except.ok [])).2.message =
      some ("Error processing query: " ++ "model not loaded") ∧
    (routeHealthcareQuery {} "show me claims data" true
        (Except.error "model not loaded") (1/2) (3/5)
        (Except.ok [])).1.error_count = ProcCounters.error_count {} + 1 :=
  C2_route_error_handling {} "show me claims data" true
    (Except.error "model not loaded") (1/2) (3/5) (Except.ok [])
    "model not loaded" (Or.inl ⟨rfl, rfl⟩)

theorem C10_witness :
    ((generateFallbackQuery "denied and approved claims" "healthcare_claims_index").opensearch_dsl.filter.countP
        (·.isStatusTerm)) ≤ 1 ∧
    (generateFallbackQuery "denied and approved claims" "healthcare_claims_index").opensearch_dsl.filter.filter
        (·.isStatusTerm) = [FilterClause.statusTerm "denied"] :=
  ⟨(C10_fallback_status_filter "denied and approved claims" "healthcare_claims_index").1,
   (C10_fallback_status_filter "denied and approved claims" "healthcare_claims_index").2
     (by decide) (by decide)⟩

end Semsearch
